import Mathlib

/-!
Verification of the MiniCon container runtime core against its specification.

The Python sources under `src/` are shallowly embedded: Python `str` becomes
`List Char`, `dict` becomes an insertion-ordered association list, JSON values
become the inductive `Json`, fallible code returns `Except PyErr`, and the
side-effecting call protocols (CPython arity checking, fork/pipe
synchronization, crash-interrupted file writes) are made explicit as
arguments, event traces, or transition systems.
-/

namespace MiniCon

/-- Python strings are modelled as lists of characters. -/
abbrev PyStr := List Char

/-- Python exception kinds raised by the embedded code
(`TypeError` from CPython call-arity checking, `ValueError` from explicit
raises in the source). -/
inductive PyErr where
  | typeError
  | valueError
  deriving DecidableEq

/-- Container state enum from `src/container/model.py` (`State`). -/
inductive State where
  | created
  | running
  | exited
  deriving DecidableEq

/-- The `.value` of the `State` enum: its lowercase name
(`CREATED = "created"` etc. in `src/container/model.py`). -/
def State.value : State → PyStr
  | .created => "created".toList
  | .running => "running".toList
  | .exited => "exited".toList

/-- The `State(s)` enum constructor from its string value; `none` models the
`ValueError` Python raises for a string that is not a member value. -/
def State.ofValue (s : PyStr) : Option State :=
  if s = "created".toList then some .created
  else if s = "running".toList then some .running
  else if s = "exited".toList then some .exited
  else none

/-- A naive `datetime.datetime` value (the only kind this code base builds:
`datetime.now()` and `datetime.fromisoformat` of saved values). -/
structure PyDateTime where
  year : Nat
  month : Nat
  day : Nat
  hour : Nat
  minute : Nat
  second : Nat
  microsecond : Nat
  deriving DecidableEq

/-- Field bounds that Python's `datetime` constructor enforces on every value
(`MINYEAR = 1`, `MAXYEAR = 9999`, and the usual calendar/clock ranges). -/
def PyDateTime.valid (d : PyDateTime) : Prop :=
  1 ≤ d.year ∧ d.year ≤ 9999 ∧ 1 ≤ d.month ∧ d.month ≤ 12 ∧
  1 ≤ d.day ∧ d.day ≤ 31 ∧ d.hour ≤ 23 ∧ d.minute ≤ 59 ∧
  d.second ≤ 59 ∧ d.microsecond ≤ 999999

instance (d : PyDateTime) : Decidable d.valid := by
  unfold PyDateTime.valid
  infer_instance

/-- Fixed-width decimal rendering, most significant digit first: the `%04d`
style padding `datetime.isoformat` uses for each field. -/
def padDigits : Nat → Nat → List Char
  | 0, _ => []
  | w + 1, n => padDigits w (n / 10) ++ [Char.ofNat (48 + n % 10)]

/-- Reads exactly `w` decimal digits, accumulating their value onto `acc`. -/
def readFixedNatAux : Nat → Nat → List Char → Option (Nat × List Char)
  | 0, acc, cs => some (acc, cs)
  | _ + 1, _, [] => none
  | w + 1, acc, c :: cs =>
      if 48 ≤ c.toNat ∧ c.toNat ≤ 57 then
        readFixedNatAux w (acc * 10 + (c.toNat - 48)) cs
      else none

/-- Reads exactly `w` decimal digits from the front of `cs`. -/
def readFixedNat (w : Nat) (cs : List Char) : Option (Nat × List Char) :=
  readFixedNatAux w 0 cs

/-- The output of `datetime.isoformat()` on a naive datetime:
`YYYY-MM-DDTHH:MM:SS`, extended with `.ffffff` exactly when the microsecond
field is nonzero (CPython omits the fractional part when it is 0). -/
def PyDateTime.isoformat (d : PyDateTime) : PyStr :=
  padDigits 4 d.year ++ '-' ::
  (padDigits 2 d.month ++ '-' ::
  (padDigits 2 d.day ++ 'T' ::
  (padDigits 2 d.hour ++ ':' ::
  (padDigits 2 d.minute ++ ':' ::
  (padDigits 2 d.second ++
    (if d.microsecond = 0 then [] else '.' :: padDigits 6 d.microsecond))))))

/-- Consumes the expected punctuation character. -/
def expectChar (c : Char) : List Char → Option (List Char)
  | [] => none
  | x :: xs => if x = c then some xs else none

/-- `datetime.fromisoformat` restricted to the grammar of
`PyDateTime.isoformat` outputs, the only strings this code base ever feeds it
(values the registry itself serialized). `none` models the `ValueError`
CPython raises on a malformed string. -/
def PyDateTime.fromisoformat (cs : PyStr) : Option PyDateTime := do
  let (y, cs) ← readFixedNat 4 cs
  let cs ← expectChar '-' cs
  let (mo, cs) ← readFixedNat 2 cs
  let cs ← expectChar '-' cs
  let (da, cs) ← readFixedNat 2 cs
  let cs ← expectChar 'T' cs
  let (h, cs) ← readFixedNat 2 cs
  let cs ← expectChar ':' cs
  let (mi, cs) ← readFixedNat 2 cs
  let cs ← expectChar ':' cs
  let (s, cs) ← readFixedNat 2 cs
  match cs with
  | [] => some ⟨y, mo, da, h, mi, s, 0⟩
  | '.' :: rest =>
      match readFixedNat 6 rest with
      | some (us, []) => some ⟨y, mo, da, h, mi, s, us⟩
      | _ => none
  | _ => none

/-- JSON values. The registry's text layer is identified with the value tree:
`json.loads (json.dumps v) = v` for every JSON-representable `v`, so the
embedding works with trees and `json.dumps`/`json.loads` become the
identity. Objects keep Python's dict insertion order. -/
inductive Json where
  | null
  | int (n : Int)
  | str (s : PyStr)
  | arr (xs : List Json)
  | obj (fields : List (PyStr × Json))

/-- The `Container` dataclass from `src/container/model.py`, field for field
in declaration order. `created_at` has no Lean-side default: in the Python
source its default is the single `datetime.now()` value computed when the
class body runs at import time, which the embedding passes around explicitly
as `importDefault` (see `ContainerManager.newContainer`). -/
structure Container where
  name : PyStr
  id : PyStr
  command : List PyStr
  root_fs : PyStr
  hostname : PyStr
  memory_limit : Int
  process_id : Option Int
  state : State
  exit_code : Int
  created_at : PyDateTime
  started_at : Option PyDateTime
  exited_at : Option PyDateTime
  deriving DecidableEq

/-- Serialization of an `Optional[int]` field. -/
def Json.ofOptInt : Option Int → Json
  | none => .null
  | some n => .int n

/-- Serialization of an `Optional[datetime]` field: ISO string or `null`. -/
def Json.ofOptDateTime : Option PyDateTime → Json
  | none => .null
  | some d => .str d.isoformat

/-- The key/value pairs `asdict(self)` produces for a container, after the
conversion loop of `Container.to_dict`: datetime values rendered by
`isoformat`, enum values replaced by `.value`, keys in dataclass field
order. -/
def toDictFields (c : Container) : List (PyStr × Json) :=
  [("name".toList, .str c.name),
   ("id".toList, .str c.id),
   ("command".toList, .arr (c.command.map Json.str)),
   ("root_fs".toList, .str c.root_fs),
   ("hostname".toList, .str c.hostname),
   ("memory_limit".toList, .int c.memory_limit),
   ("process_id".toList, Json.ofOptInt c.process_id),
   ("state".toList, .str c.state.value),
   ("exit_code".toList, .int c.exit_code),
   ("created_at".toList, .str c.created_at.isoformat),
   ("started_at".toList, Json.ofOptDateTime c.started_at),
   ("exited_at".toList, Json.ofOptDateTime c.exited_at)]

/-- `Container.to_dict`: the serialized dictionary. -/
def Container.to_dict (c : Container) : Json :=
  .obj (toDictFields c)

/-- Dictionary key lookup (`data[key]` / `key in data`). -/
def lookupField (fields : List (PyStr × Json)) (k : PyStr) : Option Json :=
  match fields.find? (fun p => decide (p.1 = k)) with
  | some p => some p.2
  | none => none

/-- A value that must be a Python `str`. -/
def Json.asStr : Json → Option PyStr
  | .str s => some s
  | _ => none

/-- A value that must be a Python `int`. -/
def Json.asInt : Json → Option Int
  | .int n => some n
  | _ => none

/-- Each element of a JSON array read back as a Python `str`. -/
def Json.asStrAll : List Json → Option (List PyStr)
  | [] => some []
  | j :: js => do
      let s ← j.asStr
      let ss ← Json.asStrAll js
      some (s :: ss)

/-- A value that must be a list of strings (the `command` field). -/
def Json.asStrList : Json → Option (List PyStr)
  | .arr xs => Json.asStrAll xs
  | _ => none

/-- The dataclass field names accepted by `Container(**data)`; any other key
raises `TypeError`. -/
def containerKeys : List PyStr :=
  ["name", "id", "command", "root_fs", "hostname", "memory_limit",
   "process_id", "state", "exit_code", "created_at", "started_at",
   "exited_at"].map String.toList

/-- The `state` handling of `Container.from_dict`, applied to the result of
looking the key up: a present string value goes through the `State(...)`
constructor (`none` models its `ValueError`); an absent key takes the
dataclass default `State.CREATED`; any other present value would leave the
field ill-typed, which the embedding rejects. -/
def readStateField : Option Json → Option State
  | none => some .created
  | some (.str s) => State.ofValue s
  | some _ => none

/-- The date-field handling of `Container.from_dict` for the two optional
datetime fields: a truthy string is parsed with `fromisoformat`; an absent key
or a falsy value (`null`) stays `None`; anything else would leave the field
ill-typed, which the embedding rejects (an empty string stays a `str`). -/
def readOptDateField : Option Json → Option (Option PyDateTime)
  | none => some none
  | some .null => some none
  | some (.str s) =>
      if s = [] then none else (PyDateTime.fromisoformat s).map some
  | some _ => none

/-- The date-field handling for `created_at`, whose dataclass default is the
import-time `datetime.now()` value (`importDefault`). -/
def readCreatedAtField (importDefault : PyDateTime) :
    Option Json → Option PyDateTime
  | none => some importDefault
  | some (.str s) => if s = [] then none else PyDateTime.fromisoformat s
  | some _ => none

/-- The `process_id` field: `Optional[int]`, default `None`. -/
def readOptIntField : Option Json → Option (Option Int)
  | none => some none
  | some .null => some none
  | some (.int n) => some (some n)
  | some _ => none

/-- The `exit_code` field: `int`, default `0`. -/
def readExitCodeField : Option Json → Option Int
  | none => some 0
  | some (.int n) => some n
  | some _ => none

/-- `Container.from_dict(data)`: converts a present string `state` through the
enum constructor, parses truthy string date fields with `fromisoformat`, and
calls `cls(**data)`. `none` models every raising path (`ValueError` from
`State(...)`/`fromisoformat`, `TypeError` from unknown or missing keys) as
well as inputs on which `cls(**data)` would build a value outside the declared
field types. -/
def Container.from_dict (importDefault : PyDateTime) : Json → Option Container
  | .obj fields =>
      if fields.all (fun p => decide (p.1 ∈ containerKeys)) then do
        let name ← (lookupField fields ("name".toList)).bind Json.asStr
        let id ← (lookupField fields ("id".toList)).bind Json.asStr
        let command ← (lookupField fields ("command".toList)).bind Json.asStrList
        let root_fs ← (lookupField fields ("root_fs".toList)).bind Json.asStr
        let hostname ← (lookupField fields ("hostname".toList)).bind Json.asStr
        let memory_limit ←
          (lookupField fields ("memory_limit".toList)).bind Json.asInt
        let process_id ← readOptIntField (lookupField fields ("process_id".toList))
        let state ← readStateField (lookupField fields ("state".toList))
        let exit_code ← readExitCodeField (lookupField fields ("exit_code".toList))
        let created_at ←
          readCreatedAtField importDefault (lookupField fields ("created_at".toList))
        let started_at ← readOptDateField (lookupField fields ("started_at".toList))
        let exited_at ← readOptDateField (lookupField fields ("exited_at".toList))
        some ⟨name, id, command, root_fs, hostname, memory_limit, process_id,
          state, exit_code, created_at, started_at, exited_at⟩
      else none
  | _ => none

/-- `Container.to_json`: `json.dumps(self.to_dict())`, at the value-tree
layer. -/
def Container.to_json (c : Container) : Json := c.to_dict

/-- `Container.from_json`: `cls.from_dict(json.loads(json_str))`, at the
value-tree layer. -/
def Container.from_json (importDefault : PyDateTime) (j : Json) :
    Option Container :=
  Container.from_dict importDefault j

/-- The in-memory `ContainerRegistry._containers` dictionary from
`src/container/registry.py`, as an insertion-ordered association list keyed by
container id (Python dicts preserve insertion order). -/
structure ContainerRegistry where
  containers : List (PyStr × Container)
  deriving DecidableEq

/-- `ContainerRegistry.get_container`: `self._containers.get(container_id)`. -/
def ContainerRegistry.get_container (r : ContainerRegistry) (container_id : PyStr) :
    Option Container :=
  match r.containers.find? (fun p => decide (p.1 = container_id)) with
  | some p => some p.2
  | none => none

/-- `ContainerRegistry.get_all_containers`: `list(self._containers.values())`.
The method signature in `src/container/registry.py` line 91 declares no
parameter besides `self`. -/
def ContainerRegistry.get_all_containers (r : ContainerRegistry) : List Container :=
  r.containers.map Prod.snd

/-- A call to the bound method `registry.get_all_containers(...)` with the
given positional arguments. CPython checks arity at call time: since the
method accepts no argument besides `self`, any non-empty argument list raises
`TypeError` (this is how `ContainerManager.list`, which passes its `state`
argument through, and `_recover_running_containers`, which passes
`State.RUNNING`, actually behave against this registry). -/
def ContainerRegistry.get_all_containers_call (r : ContainerRegistry)
    (args : List (Option State)) : Except PyErr (List Container) :=
  match args with
  | [] => .ok r.get_all_containers
  | _ :: _ => .error .typeError

/-- Modelled from the spec: `get_all(filter: Option<State>) → Vec<Container>` —
filter omitted means all, otherwise exactly the containers whose state equals
the filter. The source's `get_all_containers` accepts no filter, so this
second definition captures the specified behaviour for comparison. -/
def ContainerRegistry.get_all_spec (r : ContainerRegistry)
    (filter : Option State) : List Container :=
  match filter with
  | none => r.get_all_containers
  | some st => r.get_all_containers.filter (fun c => decide (c.state = st))

/-- `ContainerRegistry.save_container`: `self._containers[container.id] =
container` followed by `_save_to_file` (dict assignment replaces in place when
the key exists, else appends). -/
def ContainerRegistry.save_container (r : ContainerRegistry) (c : Container) :
    ContainerRegistry :=
  if r.containers.any (fun p => decide (p.1 = c.id)) then
    ⟨r.containers.map (fun p => if p.1 = c.id then (p.1, c) else p)⟩
  else
    ⟨r.containers ++ [(c.id, c)]⟩

/-- The keyword arguments `update_container_state` accepts at its call sites
(`process_id` from `start`, `exit_code` from the monitor); `none` means the
keyword was not passed. -/
structure UpdateKwargs where
  process_id : Option (Option Int)
  exit_code : Option Int
  deriving DecidableEq

/-- No keyword arguments. -/
def UpdateKwargs.none' : UpdateKwargs := ⟨none, none⟩

/-- The `setattr` loop of `update_container_state` applied to one container. -/
def UpdateKwargs.apply (kw : UpdateKwargs) (c : Container) : Container :=
  let c := match kw.process_id with
    | none => c
    | some v => { c with process_id := v }
  match kw.exit_code with
  | none => c
  | some v => { c with exit_code := v }

/-- `ContainerRegistry.update_container_state`: returns `False` leaving the
map unchanged when the id is absent, otherwise sets the new state, applies the
keyword arguments, persists, and returns `True`. -/
def ContainerRegistry.update_container_state (r : ContainerRegistry)
    (container_id : PyStr) (new_state : State) (kw : UpdateKwargs) :
    Bool × ContainerRegistry :=
  if r.containers.any (fun p => decide (p.1 = container_id)) then
    (true, ⟨r.containers.map (fun p =>
      if p.1 = container_id then (p.1, kw.apply { p.2 with state := new_state })
      else p)⟩)
  else
    (false, r)

/-- `ContainerRegistry.remove_container`: deletes the id if present and
persists; returns whether it was present. -/
def ContainerRegistry.remove_container (r : ContainerRegistry)
    (container_id : PyStr) : Bool × ContainerRegistry :=
  if r.containers.any (fun p => decide (p.1 = container_id)) then
    (true, ⟨r.containers.filter (fun p => decide (p.1 ≠ container_id))⟩)
  else
    (false, r)

/-- `MAX_CONTAINER_NAME_LENGTH` from `src/constants.py`. -/
def MAX_CONTAINER_NAME_LENGTH : Nat := 64

/-- `ALLOWED_CONTAINER_NAME_CHARS` from `src/constants.py`: the characters of
the literal `"abcdefghijklmnopqrstuvwxyzABCDEFGHIJKLMNOPQRSTUVWXYZ0123456789-_"`. -/
def ALLOWED_CONTAINER_NAME_CHARS : List Char :=
  "abcdefghijklmnopqrstuvwxyzABCDEFGHIJKLMNOPQRSTUVWXYZ0123456789-_".toList

/-- `DANGEROUS_COMMANDS` from `src/constants.py`. -/
def DANGEROUS_COMMANDS : List PyStr :=
  ["rm", "rmdir", "dd", "mkfs", "fdisk", "parted", "mount", "umount", "sudo",
   "su", "chmod", "chown"].map String.toList

/-- `os.path.basename` on POSIX: everything after the last slash. -/
def basename (p : PyStr) : PyStr :=
  p.foldl (fun acc c => if c = '/' then [] else acc ++ [c]) []

/-- `validate_container_name` from `src/utils/security.py`: false for an empty
or overlong name, else every character must be in the allowed set. -/
def validate_container_name (name : PyStr) : Bool :=
  if name = [] ∨ name.length > MAX_CONTAINER_NAME_LENGTH then false
  else name.all (fun c => decide (c ∈ ALLOWED_CONTAINER_NAME_CHARS))

/-- `validate_command` from `src/utils/security.py`: false for an empty
argument list or when the basename of the executable is a dangerous
command. -/
def validate_command : List PyStr → Bool
  | [] => false
  | c0 :: _ => !(DANGEROUS_COMMANDS.contains (basename c0))

/-- `MINICON_ROOTFS_DIR` default from `src/constants.py`. -/
def MINICON_ROOTFS_DIR : PyStr := "/var/lib/minicon/rootfs".toList

/-- The `Container(...)` call inside `ContainerManager.create`: it passes
name, id, command, hostname (= name), memory limit and the prepared rootfs
path, and omits `created_at` — so the instance receives the dataclass
default, the single `datetime.now()` computed at import time
(`importTime`). -/
def ContainerManager.newContainer (importTime : PyDateTime) (name : PyStr)
    (command : List PyStr) (memory_limit : Int) (container_id : PyStr) :
    Container :=
  { name := name
    id := container_id
    command := command
    root_fs := MINICON_ROOTFS_DIR ++ '/' :: container_id
    hostname := name
    memory_limit := memory_limit
    process_id := none
    state := .created
    exit_code := 0
    created_at := importTime
    started_at := none
    exited_at := none }

/-- `ContainerManager.create`: validates the name, then the command, then
prepares the root filesystem (pure path construction here; populating the
directory is filesystem work the spec places out of scope), builds the
container and persists it. `container_id` stands for the fresh
`str(uuid.uuid4())[:8]` draw. Returns the result of the call together with
the registry state after it. -/
def ContainerManager.create (importTime : PyDateTime) (reg : ContainerRegistry)
    (name : PyStr) (command : List PyStr) (memory_limit : Int)
    (container_id : PyStr) : Except PyErr PyStr × ContainerRegistry :=
  if validate_container_name name = false then (.error .valueError, reg)
  else if validate_command command = false then (.error .valueError, reg)
  else
    (.ok container_id,
     reg.save_container
       (ContainerManager.newContainer importTime name command memory_limit
         container_id))

/-- `ContainerManager.start`, registry part: not-found and wrong-state checks,
then on success `update_container_state(id, RUNNING, process_id=pid)` (the
orchestrator's process creation is abstracted as succeeding and yielding
`pid`; on its failure the source re-raises and the registry is left as it
was, which is the error shape this model also returns). -/
def ContainerManager.start (reg : ContainerRegistry) (container_id : PyStr)
    (pid : Int) : Except PyErr ContainerRegistry :=
  match reg.get_container container_id with
  | none => .error .valueError
  | some c =>
      if c.state ≠ State.created then .error .valueError
      else
        .ok (reg.update_container_state container_id .running
          ⟨some (some pid), none⟩).2

/-- `ContainerManager.stop`, registry part: not-found, wrong-state and
missing-orchestrator checks, then `terminate` (kernel side effect outside the
registry) and `update_container_state(id, EXITED)`. `orchs` is the manager's
`_orchestrators` key set. -/
def ContainerManager.stop (reg : ContainerRegistry) (orchs : List PyStr)
    (container_id : PyStr) : Except PyErr ContainerRegistry :=
  match reg.get_container container_id with
  | none => .error .valueError
  | some c =>
      if c.state ≠ State.running then .error .valueError
      else if ¬ container_id ∈ orchs then .error .valueError
      else .ok (reg.update_container_state container_id .exited
        UpdateKwargs.none').2

/-- `ContainerManager.remove`: not-found check, refusal while running, then
`remove_container` (orchestrator cleanup is outside the registry). -/
def ContainerManager.remove (reg : ContainerRegistry) (container_id : PyStr) :
    Except PyErr ContainerRegistry :=
  match reg.get_container container_id with
  | none => .error .valueError
  | some c =>
      if c.state = State.running then .error .valueError
      else .ok (reg.remove_container container_id).2

/-- `ContainerManager._monitor_container` after `wait_for_exit` returns:
`update_container_state(id, EXITED, exit_code=code)`. -/
def ContainerManager.monitorExit (reg : ContainerRegistry) (container_id : PyStr)
    (exit_code : Int) : ContainerRegistry :=
  (reg.update_container_state container_id .exited ⟨none, some exit_code⟩).2

/-- `ContainerManager.list`: `return self.registry.get_all_containers(state)` —
one positional argument is always passed, including `None` when the caller
gave no filter. -/
def ContainerManager.list (reg : ContainerRegistry) (state : Option State) :
    Except PyErr (List Container) :=
  reg.get_all_containers_call [state]

/-- The per-container body of `_recover_running_containers`: a truthy
`process_id` (not `None`, not `0`) whose process answers `kill(pid, 0)` keeps
its registry entry and gains an orchestrator; otherwise the container is
marked `EXITED`. `alive` is the `os.kill(pid, 0)` oracle. -/
def recoverLoop (alive : Int → Bool) :
    List Container → ContainerRegistry → List PyStr →
    ContainerRegistry × List PyStr
  | [], reg, orchs => (reg, orchs)
  | c :: cs, reg, orchs =>
      match c.process_id with
      | some pid =>
          if pid ≠ 0 ∧ alive pid then
            recoverLoop alive cs reg (orchs ++ [c.id])
          else
            recoverLoop alive cs
              (reg.update_container_state c.id .exited UpdateKwargs.none').2 orchs
      | none =>
          recoverLoop alive cs
            (reg.update_container_state c.id .exited UpdateKwargs.none').2 orchs

/-- `ContainerManager._recover_running_containers` as the source executes it:
its first statement is `self.registry.get_all_containers(State.RUNNING)`, a
call with one positional argument. -/
def ContainerManager.recover_running_containers (alive : Int → Bool)
    (reg : ContainerRegistry) : Except PyErr (ContainerRegistry × List PyStr) := do
  let running ← reg.get_all_containers_call [some .running]
  .ok (recoverLoop alive running reg [])

/-- Modelled from the spec: recovery at Manager construction scans all
containers in state `Running` (via the specified filtered `get_all`) and
reconciles each against the host with `kill(pid, 0)`. -/
def ContainerManager.recover_spec (alive : Int → Bool) (reg : ContainerRegistry) :
    ContainerRegistry × List PyStr :=
  recoverLoop alive (reg.get_all_spec (some .running)) reg []

/-- `WTERMSIG(status)` from `<sys/wait.h>`: `status & 0x7f`. -/
def WTERMSIG (status : Nat) : Nat := status % 128

/-- `WIFEXITED(status)`: the low seven bits are zero. -/
def WIFEXITED (status : Nat) : Bool := WTERMSIG status = 0

/-- `WEXITSTATUS(status)`: `(status & 0xff00) >> 8`. -/
def WEXITSTATUS (status : Nat) : Nat := status / 256 % 256

/-- `WIFSIGNALED(status)`: the low seven bits are neither `0` (normal exit)
nor `0x7f` (stopped). -/
def WIFSIGNALED (status : Nat) : Bool :=
  decide (status % 128 ≠ 0) && decide (status % 128 ≠ 127)

/-- Observable events of `NamespaceOrchestrator.wait_for_exit`. -/
inductive WaitEvent where
  | waitpid
  | cleanupResources
  deriving DecidableEq

/-- The exit-code derivation inside `NamespaceOrchestrator.wait_for_exit`
(orchestrator.py lines 240-243): `WEXITSTATUS` when `WIFEXITED`, else `-1` —
there is no signal branch there. -/
def NamespaceOrchestrator.wait_exit_code (status : Nat) : Int :=
  if WIFEXITED status then (WEXITSTATUS status : Int) else -1

/-- `NamespaceOrchestrator.wait_for_exit`: raises `ValueError` when
`self._container_pid` is falsy (`None` or `0`), otherwise performs
`waitpid(pid, 0)` — whose kernel-reported status is the `status` argument —
derives the exit code, calls `cleanup_resources`, and returns the code
together with the ordered list of effects it performed before returning. -/
def NamespaceOrchestrator.wait_for_exit (container_pid : Option Int)
    (status : Nat) : Except PyErr (Int × List WaitEvent) :=
  match container_pid with
  | none => .error .valueError
  | some pid =>
      if pid = 0 then .error .valueError
      else .ok (NamespaceOrchestrator.wait_exit_code status,
        [.waitpid, .cleanupResources])

/-- `NamespaceOrchestrator._handle_child_exit` (orchestrator.py lines
515-533): the full three-way derivation, including the `128 + signal` branch.
No caller in the source invokes it. -/
def NamespaceOrchestrator.handle_child_exit (status : Nat) : Int :=
  if WIFEXITED status then (WEXITSTATUS status : Int)
  else if WIFSIGNALED status then 128 + (WTERMSIG status : Int)
  else -1

/-- Observable parent-side events of
`NamespaceOrchestrator.create_container_process`, in source order. -/
inductive ParentEvent where
  | setupNamespaces
  | preSetupCgroups
  | createPipe
  | fork
  | applyUserMappings
  | writeGo
  | closeWriteFd
  | applyCgroup
  deriving DecidableEq

/-- The configuration bits `create_container_process` branches on. -/
structure OrchConfig where
  commandSet : Bool
  runningAsRoot : Bool
  uidMappings : Bool
  gidMappings : Bool
  deriving DecidableEq

/-- The parent-side event trace of
`NamespaceOrchestrator.create_container_process` (orchestrator.py lines
171-222): namespaces, cgroup pre-creation, pipe, synchronized fork; then UID/
GID maps when not running as root and both mapping lists are non-empty; then
`os.write(write_fd, b"go")` and `os.close(write_fd)`; then
`_apply_process_to_cgroup`, which writes the child PID to `cgroup.procs`. -/
def NamespaceOrchestrator.create_container_process_trace (cfg : OrchConfig) :
    Except PyErr (List ParentEvent) :=
  if cfg.commandSet = false then .error .valueError
  else
    .ok ([.setupNamespaces, .preSetupCgroups, .createPipe, .fork] ++
      (if ¬ cfg.runningAsRoot ∧ cfg.uidMappings ∧ cfg.gidMappings then
        [.applyUserMappings] else []) ++
      [.writeGo, .closeWriteFd, .applyCgroup])

/-- Joint state of the parent and the forked child around the
synchronization pipe, for runs with an active user namespace.
Parent program counter (`create_container_process` after the fork):
0 = about to write the UID/GID maps, 1 = about to write `"go"`,
2 = about to close the write end, 3 = about to attach the cgroup, 4 = done.
Child program counter (`fork_in_new_namespace_sync` child branch):
0 = about to close the write end, 1 = blocked in `os.read(read_fd, 2)`,
2 = about to run `child_func` (isolation, privilege drop, `execvp`),
3 = user code running. -/
structure SyncState where
  parentPc : Nat
  childPc : Nat
  goWritten : Bool
  deriving DecidableEq

/-- Interleaved small-step semantics of the two processes. The child's read
step is enabled only once the parent has written the go bytes: the pipe is
otherwise empty and its write end still open, so `os.read` blocks. A process
may also simply stop (an exception path); that is represented by a run ending
early, since reachability includes every prefix. -/
inductive SyncStep : SyncState → SyncState → Prop
  | parentApplyMappings (c : Nat) (g : Bool) :
      SyncStep ⟨0, c, g⟩ ⟨1, c, g⟩
  | parentWriteGo (c : Nat) (g : Bool) :
      SyncStep ⟨1, c, g⟩ ⟨2, c, true⟩
  | parentCloseFd (c : Nat) (g : Bool) :
      SyncStep ⟨2, c, g⟩ ⟨3, c, g⟩
  | parentApplyCgroup (c : Nat) (g : Bool) :
      SyncStep ⟨3, c, g⟩ ⟨4, c, g⟩
  | childCloseWrite (p : Nat) (g : Bool) :
      SyncStep ⟨p, 0, g⟩ ⟨p, 1, g⟩
  | childReadUnblocks (p : Nat) :
      SyncStep ⟨p, 1, true⟩ ⟨p, 2, true⟩
  | childRunUserCode (p : Nat) (g : Bool) :
      SyncStep ⟨p, 2, g⟩ ⟨p, 3, g⟩

/-- Both processes start at their first statement after the fork, with no go
signal written. -/
def SyncState.init : SyncState := ⟨0, 0, false⟩

/-- States the fork protocol can reach. -/
def SyncReachable (s : SyncState) : Prop :=
  Relation.ReflTransGen SyncStep SyncState.init s

/-- On-disk state relevant to `ContainerRegistry._save_to_file`: the registry
file and the temporary file. The registry file holds a parsed serialized map
when intact; the temp file is represented as the map being written plus how
many of its entries have reached the disk (a crash mid-write leaves a
prefix). -/
structure Disk where
  regFile : Option (List (PyStr × Json))
  tmpFile : Option (List (PyStr × Json) × Nat)

/-- The serialization `_save_to_file` performs: the full `_containers` map,
each value through `to_dict`. -/
def serializeRegistry (r : ContainerRegistry) : List (PyStr × Json) :=
  r.containers.map (fun p => (p.1, p.2.to_dict))

/-- Points at which a save can crash or fail: before anything is written
(including the `makedirs` call and serialization errors, which re-raise with
the registry file untouched), after `j` entries of the temp file have been
written, just before the rename, or after the atomic `os.replace`. -/
inductive CrashPoint where
  | beforeWrite
  | duringTmpWrite (j : Nat)
  | beforeRename
  | afterRename

/-- `ContainerRegistry._save_to_file` under a crash at `p`: the temp file
`<file>.tmp` receives the serialized map (possibly partially), and only the
atomic `os.replace(temp_file, registry_file)` changes the registry file. -/
def save_to_file_crash (d : Disk) (r : ContainerRegistry) (p : CrashPoint) :
    Disk :=
  match p with
  | .beforeWrite => d
  | .duringTmpWrite j => { d with tmpFile := some (serializeRegistry r, j) }
  | .beforeRename =>
      { d with tmpFile := some (serializeRegistry r, (serializeRegistry r).length) }
  | .afterRename => { regFile := some (serializeRegistry r), tmpFile := none }

/-- A completed, crash-free `_save_to_file`. -/
def save_to_file (d : Disk) (r : ContainerRegistry) : Disk :=
  save_to_file_crash d r .afterRename

/-- The manager's mutable state: the registry plus the key set of the
`_orchestrators` dictionary. -/
structure ManagerState where
  registry : ContainerRegistry
  orchestrators : List PyStr
  deriving DecidableEq

/-- One public manager operation, or the per-container monitor completing.
`fresh_id` on `create` stands for the `str(uuid.uuid4())[:8]` draw of that
call. -/
inductive Op where
  | create (importTime : PyDateTime) (name : PyStr) (command : List PyStr)
      (memory_limit : Int) (fresh_id : PyStr)
  | start (container_id : PyStr) (pid : Int)
  | stop (container_id : PyStr)
  | remove (container_id : PyStr)
  | monitorExit (container_id : PyStr) (exit_code : Int)
  deriving DecidableEq

/-- Whether an operation is `remove` of the given id. -/
def Op.isRemoveOf (cid : PyStr) : Op → Bool
  | .remove c => decide (c = cid)
  | _ => false

/-- Whether an operation is a `create` whose generated id is the given id. -/
def Op.isCreateOf (cid : PyStr) : Op → Bool
  | .create _ _ _ _ c => decide (c = cid)
  | _ => false

/-- Effect of one operation on the manager state. An operation that raises
leaves the state unchanged (the source mutates the registry only after its
checks pass). `start` registers the orchestrator, `remove` and the monitor
drop it. -/
def ManagerState.step (s : ManagerState) : Op → ManagerState
  | .create it name cmd ml cid =>
      { s with registry := (ContainerManager.create it s.registry name cmd ml cid).2 }
  | .start cid pid =>
      match ContainerManager.start s.registry cid pid with
      | .ok reg => { registry := reg, orchestrators := s.orchestrators ++ [cid] }
      | .error _ => s
  | .stop cid =>
      match ContainerManager.stop s.registry s.orchestrators cid with
      | .ok reg => { s with registry := reg }
      | .error _ => s
  | .remove cid =>
      match ContainerManager.remove s.registry cid with
      | .ok reg =>
          { registry := reg,
            orchestrators := s.orchestrators.filter (fun x => decide (x ≠ cid)) }
      | .error _ => s
  | .monitorExit cid code =>
      { registry := ContainerManager.monitorExit s.registry cid code,
        orchestrators := s.orchestrators.filter (fun x => decide (x ≠ cid)) }

/-- Runs a sequence of operations left to right. -/
def ManagerState.run (s : ManagerState) : List Op → ManagerState
  | [] => s
  | op :: ops => (s.step op).run ops

/-- A fixed timestamp used by the concrete examples. -/
def demoTime : PyDateTime := ⟨2024, 5, 17, 12, 0, 0, 0⟩

/-- A concrete container in the given state, used by the examples. -/
def demoContainer (cid : PyStr) (st : State) (pid : Option Int) : Container :=
  { name := cid
    id := cid
    command := ["/bin/echo".toList, "hello".toList]
    root_fs := MINICON_ROOTFS_DIR ++ '/' :: cid
    hostname := cid
    memory_limit := 262144000
    process_id := pid
    state := st
    exit_code := 0
    created_at := demoTime
    started_at := none
    exited_at := none }

/-- The spec's state-filter scenario: containers `a` Created, `b` Running
(host pid 7), `c` Exited. -/
def demoRegistryABC : ContainerRegistry :=
  ⟨[("a".toList, demoContainer ("a".toList) .created none),
    ("b".toList, demoContainer ("b".toList) .running (some 7)),
    ("c".toList, demoContainer ("c".toList) .exited none)]⟩

/-- A manager state over the scenario registry with `b`'s orchestrator
registered. -/
def demoState : ManagerState := ⟨demoRegistryABC, ["b".toList]⟩

/-- Operations that try to revive the exited container `c` without removing
it, plus an unrelated remove. -/
def demoOps : List Op :=
  [.start ("c".toList) 9, .stop ("c".toList), .remove ("q".toList),
   .monitorExit ("c".toList) 3]

/-- The configuration `ContainerManager.start` produces when the runtime is
not root and UID/GID maps are configured. -/
def demoOrchConfig : OrchConfig := ⟨true, false, true, true⟩

/-- A fully populated container exercising every serialized field shape. -/
def demoFullContainer : Container :=
  { name := "c1".toList
    id := "ab12cd34".toList
    command := ["/bin/echo".toList, "hello".toList]
    root_fs := MINICON_ROOTFS_DIR ++ '/' :: "ab12cd34".toList
    hostname := "c1".toList
    memory_limit := 262144000
    process_id := some 1234
    state := .running
    exit_code := 0
    created_at := ⟨2024, 5, 17, 10, 30, 0, 123456⟩
    started_at := some ⟨2024, 5, 17, 10, 30, 1, 0⟩
    exited_at := none }

end MiniCon

namespace MiniCon

theorem digitChar_facts : ∀ m : Nat, m < 10 →
    (48 ≤ (Char.ofNat (48 + m)).toNat ∧ (Char.ofNat (48 + m)).toNat ≤ 57) ∧
    (Char.ofNat (48 + m)).toNat - 48 = m := by
  decide

theorem readFixedNatAux_padDigits (w : Nat) : ∀ (k acc n : Nat) (rest : List Char),
    n < 10 ^ w →
    readFixedNatAux (w + k) acc (padDigits w n ++ rest) =
      readFixedNatAux k (acc * 10 ^ w + n) rest := by
  induction w with
  | zero =>
      intro k acc n rest hn
      have hn0 : n = 0 := by omega
      subst hn0
      simp [padDigits]
  | succ w ih =>
      intro k acc n rest hn
      have hpow : (10 : Nat) ^ (w + 1) = 10 ^ w * 10 := pow_succ 10 w
      have hdiv : n / 10 < 10 ^ w := by
        rw [hpow] at hn
        omega
      have hmod : n % 10 < 10 := Nat.mod_lt _ (by norm_num)
      obtain ⟨⟨h1, h2⟩, h3⟩ := digitChar_facts (n % 10) hmod
      have e1 : w + 1 + k = w + (k + 1) := by omega
      have e2 : padDigits (w + 1) n ++ rest =
          padDigits w (n / 10) ++ (Char.ofNat (48 + n % 10) :: rest) := by
        simp [padDigits]
      rw [e1, e2, ih (k + 1) acc (n / 10) _ hdiv]
      simp only [readFixedNatAux, h3]
      rw [if_pos ⟨h1, h2⟩]
      congr 1
      rw [hpow, ← Nat.mul_assoc]
      omega

theorem readFixedNat_padDigits (w n : Nat) (rest : List Char) (hn : n < 10 ^ w) :
    readFixedNat w (padDigits w n ++ rest) = some (n, rest) := by
  have := readFixedNatAux_padDigits w 0 0 n rest hn
  simpa [readFixedNat, readFixedNatAux] using this

set_option maxHeartbeats 1000000 in
/-- Parsing an isoformat rendering recovers the datetime exactly. -/
theorem fromisoformat_isoformat (d : PyDateTime) (hd : d.valid) :
    PyDateTime.fromisoformat d.isoformat = some d := by
  obtain ⟨hy1, hy2, hmo1, hmo2, hda1, hda2, hh, hmi, hs, hus⟩ := hd
  unfold PyDateTime.isoformat PyDateTime.fromisoformat
  rw [readFixedNat_padDigits 4 d.year _ (by omega)]
  simp only [Option.bind_eq_bind, Option.some_bind, expectChar, eq_self_iff_true,
    if_true]
  rw [readFixedNat_padDigits 2 d.month _ (by omega)]
  simp only [Option.some_bind, eq_self_iff_true, if_true]
  rw [readFixedNat_padDigits 2 d.day _ (by omega)]
  simp only [Option.some_bind, eq_self_iff_true, if_true]
  rw [readFixedNat_padDigits 2 d.hour _ (by omega)]
  simp only [Option.some_bind, eq_self_iff_true, if_true]
  rw [readFixedNat_padDigits 2 d.minute _ (by omega)]
  simp only [Option.some_bind, eq_self_iff_true, if_true]
  by_cases hz : d.microsecond = 0
  · rw [hz]
    rw [readFixedNat_padDigits 2 d.second _ (by omega)]
    simp only [Option.some_bind]
    simp [← hz]
  · rw [if_neg hz]
    rw [readFixedNat_padDigits 2 d.second _ (by omega)]
    simp only [Option.some_bind]
    have hx := readFixedNat_padDigits 6 d.microsecond [] (by omega)
    rw [List.append_nil] at hx
    simp [hx]

theorem State.ofValue_value (st : State) : State.ofValue st.value = some st := by
  cases st <;> rfl

theorem isoformat_ne_nil (d : PyDateTime) : d.isoformat ≠ [] := by
  unfold PyDateTime.isoformat
  simp [padDigits]

theorem asStrAll_map_str (l : List PyStr) :
    Json.asStrAll (l.map Json.str) = some l := by
  induction l with
  | nil => rfl
  | cons x xs ih => simp [Json.asStrAll, Json.asStr, ih]

theorem readOptDateField_ofOptDateTime (x : Option PyDateTime)
    (hv : ∀ s ∈ x, s.valid) :
    readOptDateField (some (Json.ofOptDateTime x)) = some x := by
  cases x with
  | none => rfl
  | some s =>
      have hsv : s.valid := hv s rfl
      simp [Json.ofOptDateTime, readOptDateField, isoformat_ne_nil s,
        fromisoformat_isoformat s hsv]

/-- Round trip of the dictionary form for containers whose datetime fields are
well-formed Python datetimes (as all values built by `datetime.now()` or a
prior `fromisoformat` are). -/
theorem from_dict_to_dict (importDefault : PyDateTime) (c : Container)
    (hc : c.created_at.valid) (hs : ∀ s ∈ c.started_at, s.valid)
    (he : ∀ e ∈ c.exited_at, e.valid) :
    Container.from_dict importDefault c.to_dict = some c := by
  have hks : ((toDictFields c).all fun p => decide (p.1 ∈ containerKeys)) = true :=
    rfl
  have hname : (lookupField (toDictFields c) ("name".toList)).bind Json.asStr =
      some c.name := rfl
  have hid : (lookupField (toDictFields c) ("id".toList)).bind Json.asStr =
      some c.id := rfl
  have hcmd : (lookupField (toDictFields c) ("command".toList)).bind
      Json.asStrList = some c.command := by
    show Json.asStrList (Json.arr (c.command.map Json.str)) = some c.command
    simp [Json.asStrList, asStrAll_map_str]
  have hrfs : (lookupField (toDictFields c) ("root_fs".toList)).bind Json.asStr =
      some c.root_fs := rfl
  have hhost : (lookupField (toDictFields c) ("hostname".toList)).bind
      Json.asStr = some c.hostname := rfl
  have hmem : (lookupField (toDictFields c) ("memory_limit".toList)).bind
      Json.asInt = some c.memory_limit := rfl
  have hpid : readOptIntField (lookupField (toDictFields c)
      ("process_id".toList)) = some c.process_id := by
    show readOptIntField (some (Json.ofOptInt c.process_id)) = some c.process_id
    cases c.process_id <;> rfl
  have hstate : readStateField (lookupField (toDictFields c)
      ("state".toList)) = some c.state := by
    show State.ofValue c.state.value = some c.state
    exact State.ofValue_value c.state
  have hexitc : readExitCodeField (lookupField (toDictFields c)
      ("exit_code".toList)) = some c.exit_code := rfl
  have hcreated : readCreatedAtField importDefault (lookupField (toDictFields c)
      ("created_at".toList)) = some c.created_at := by
    show readCreatedAtField importDefault (some (.str c.created_at.isoformat)) =
      some c.created_at
    simp [readCreatedAtField, isoformat_ne_nil c.created_at,
      fromisoformat_isoformat c.created_at hc]
  have hstarted : readOptDateField (lookupField (toDictFields c)
      ("started_at".toList)) = some c.started_at := by
    show readOptDateField (some (Json.ofOptDateTime c.started_at)) =
      some c.started_at
    exact readOptDateField_ofOptDateTime c.started_at hs
  have hexited : readOptDateField (lookupField (toDictFields c)
      ("exited_at".toList)) = some c.exited_at := by
    show readOptDateField (some (Json.ofOptDateTime c.exited_at)) =
      some c.exited_at
    exact readOptDateField_ofOptDateTime c.exited_at he
  unfold Container.to_dict
  simp only [Container.from_dict, hks, if_true, Option.bind_eq_bind, hname, hid,
    hcmd, hrfs, hhost, hmem, hpid, hstate, hexitc, hcreated, hstarted, hexited,
    Option.some_bind]

theorem find?_map_keyPres (g : PyStr × Container → PyStr × Container)
    (hg : ∀ p, (g p).1 = p.1) (k : PyStr) (l : List (PyStr × Container)) :
    (l.map g).find? (fun p => decide (p.1 = k)) =
      (l.find? (fun p => decide (p.1 = k))).map g := by
  induction l with
  | nil => rfl
  | cons a l ih =>
      simp only [List.map_cons, List.find?_cons, hg a]
      by_cases ha : a.1 = k
      · simp [ha]
      · simp [ha, ih]

theorem find?_filter_keep (q : PyStr × Container → Bool) (k : PyStr)
    (l : List (PyStr × Container)) (hq : ∀ p, p.1 = k → q p = true) :
    (l.filter q).find? (fun p => decide (p.1 = k)) =
      l.find? (fun p => decide (p.1 = k)) := by
  induction l with
  | nil => rfl
  | cons a l ih =>
      by_cases ha : a.1 = k
      · rw [List.filter_cons, hq a ha]
        simp [List.find?_cons, ha]
      · rw [List.filter_cons]
        by_cases hqa : q a = true
        · simp [hqa, List.find?_cons, ha, ih]
        · have hf : q a = false := Bool.eq_false_iff.mpr hqa
          simp [List.filter_cons, hf, List.find?_cons, ha, ih]

theorem get_container_save_other (r : ContainerRegistry) (c : Container)
    (cid : PyStr) (h : c.id ≠ cid) :
    (r.save_container c).get_container cid = r.get_container cid := by
  unfold ContainerRegistry.save_container ContainerRegistry.get_container
  by_cases hany : r.containers.any (fun p => decide (p.1 = c.id))
  · rw [if_pos hany]
    simp only
    rw [find?_map_keyPres (fun p => if p.1 = c.id then (p.1, c) else p)
      (by intro p; by_cases hp : p.1 = c.id <;> simp [hp]) cid]
    cases hf : r.containers.find? (fun p => decide (p.1 = cid)) with
    | none => rfl
    | some p =>
        have hp := List.find?_some hf
        simp only [decide_eq_true_eq] at hp
        have : ¬ p.1 = c.id := by rw [hp]; exact fun hh => h hh.symm
        simp [this]
  · rw [if_neg hany]
    simp only
    rw [List.find?_append]
    cases hf : r.containers.find? (fun p => decide (p.1 = cid)) with
    | none =>
        simp only [Option.none_or]
        have : ¬ (c.id = cid) := h
        simp [List.find?_cons, this]
    | some p => rfl

theorem get_container_update_other (r : ContainerRegistry) (cid' : PyStr)
    (st : State) (kw : UpdateKwargs) (cid : PyStr) (h : cid' ≠ cid) :
    ((r.update_container_state cid' st kw).2).get_container cid =
      r.get_container cid := by
  unfold ContainerRegistry.update_container_state ContainerRegistry.get_container
  by_cases hany : r.containers.any (fun p => decide (p.1 = cid'))
  · rw [if_pos hany]
    simp only
    rw [find?_map_keyPres _ (by intro p; by_cases hp : p.1 = cid' <;> simp [hp]) cid]
    cases hf : r.containers.find? (fun p => decide (p.1 = cid)) with
    | none => rfl
    | some p =>
        have hp := List.find?_some hf
        simp only [decide_eq_true_eq] at hp
        have : ¬ p.1 = cid' := by rw [hp]; exact fun hh => h hh.symm
        simp [this]
  · rw [if_neg hany]

theorem get_container_update_same (r : ContainerRegistry) (cid : PyStr)
    (st : State) (kw : UpdateKwargs) :
    ((r.update_container_state cid st kw).2).get_container cid =
      (r.get_container cid).map (fun c => kw.apply { c with state := st }) := by
  unfold ContainerRegistry.update_container_state ContainerRegistry.get_container
  by_cases hany : r.containers.any (fun p => decide (p.1 = cid))
  · rw [if_pos hany]
    simp only
    rw [find?_map_keyPres _ (by intro p; by_cases hp : p.1 = cid <;> simp [hp]) cid]
    cases hf : r.containers.find? (fun p => decide (p.1 = cid)) with
    | none => rfl
    | some p =>
        have hp := List.find?_some hf
        simp only [decide_eq_true_eq] at hp
        simp [hp]
  · rw [if_neg hany]
    rw [List.any_eq_true] at hany
    push_neg at hany
    cases hf : r.containers.find? (fun p => decide (p.1 = cid)) with
    | none => rfl
    | some p =>
        exact absurd (List.find?_some hf) (by simpa using hany p (List.mem_of_find?_eq_some hf))

theorem get_container_remove_other (r : ContainerRegistry) (cid' cid : PyStr)
    (h : cid' ≠ cid) :
    ((r.remove_container cid').2).get_container cid = r.get_container cid := by
  unfold ContainerRegistry.remove_container ContainerRegistry.get_container
  by_cases hany : r.containers.any (fun p => decide (p.1 = cid'))
  · rw [if_pos hany]
    simp only
    rw [find?_filter_keep _ cid r.containers]
    intro p hp
    simp only [decide_eq_true_eq]
    rw [hp]
    exact fun hh => h hh.symm
  · rw [if_neg hany]

/-- A container in state `Exited` survives any single operation that is
neither `remove` of its id nor a `create` drawing its id: it is still present
and still `Exited`. -/
theorem step_preserves_exited (s : ManagerState) (op : Op) (cid : PyStr)
    (c : Container) (hget : s.registry.get_container cid = some c)
    (hex : c.state = State.exited)
    (hrm : Op.isRemoveOf cid op = false) (hcr : Op.isCreateOf cid op = false) :
    ∃ c', (s.step op).registry.get_container cid = some c' ∧
      c'.state = State.exited := by
  cases op with
  | create it name cmd ml fid =>
      have hfid : fid ≠ cid := by
        simpa [Op.isCreateOf] using hcr
      simp only [ManagerState.step]
      unfold ContainerManager.create
      by_cases h1 : validate_container_name name = false
      · rw [if_pos h1]
        exact ⟨c, hget, hex⟩
      · rw [if_neg h1]
        by_cases h2 : validate_command cmd = false
        · rw [if_pos h2]
          exact ⟨c, hget, hex⟩
        · rw [if_neg h2]
          simp only
          rw [get_container_save_other _ _ _ hfid]
          exact ⟨c, hget, hex⟩
  | start cid' pid =>
      by_cases hc' : cid' = cid
      · subst hc'
        have hstart : ContainerManager.start s.registry cid' pid =
            .error .valueError := by
          simp [ContainerManager.start, hget, hex]
        simp only [ManagerState.step, hstart]
        exact ⟨c, hget, hex⟩
      · cases hres : ContainerManager.start s.registry cid' pid with
        | error e =>
            simp only [ManagerState.step, hres]
            exact ⟨c, hget, hex⟩
        | ok reg =>
            simp only [ManagerState.step, hres]
            cases hg : s.registry.get_container cid' with
            | none =>
                simp only [ContainerManager.start, hg] at hres
                exact Except.noConfusion hres
            | some c0 =>
                simp only [ContainerManager.start, hg] at hres
                by_cases hst : c0.state ≠ State.created
                · rw [if_pos hst] at hres; cases hres
                · rw [if_neg hst] at hres
                  injection hres with hreg
                  rw [← hreg, get_container_update_other _ _ _ _ _ hc']
                  exact ⟨c, hget, hex⟩
  | stop cid' =>
      by_cases hc' : cid' = cid
      · subst hc'
        have hstop : ContainerManager.stop s.registry s.orchestrators cid' =
            .error .valueError := by
          simp [ContainerManager.stop, hget, hex]
        simp only [ManagerState.step, hstop]
        exact ⟨c, hget, hex⟩
      · cases hres : ContainerManager.stop s.registry s.orchestrators cid' with
        | error e =>
            simp only [ManagerState.step, hres]
            exact ⟨c, hget, hex⟩
        | ok reg =>
            simp only [ManagerState.step, hres]
            cases hg : s.registry.get_container cid' with
            | none =>
                simp only [ContainerManager.stop, hg] at hres
                exact Except.noConfusion hres
            | some c0 =>
                simp only [ContainerManager.stop, hg] at hres
                by_cases hst : c0.state ≠ State.running
                · rw [if_pos hst] at hres; cases hres
                · rw [if_neg hst] at hres
                  by_cases horc : ¬ cid' ∈ s.orchestrators
                  · rw [if_pos horc] at hres; cases hres
                  · rw [if_neg horc] at hres
                    injection hres with hreg
                    rw [← hreg, get_container_update_other _ _ _ _ _ hc']
                    exact ⟨c, hget, hex⟩
  | remove cid' =>
      have hc' : cid' ≠ cid := by
        simpa [Op.isRemoveOf] using hrm
      cases hres : ContainerManager.remove s.registry cid' with
      | error e =>
          simp only [ManagerState.step, hres]
          exact ⟨c, hget, hex⟩
      | ok reg =>
          simp only [ManagerState.step, hres]
          cases hg : s.registry.get_container cid' with
          | none =>
                simp only [ContainerManager.remove, hg] at hres
                exact Except.noConfusion hres
          | some c0 =>
              simp only [ContainerManager.remove, hg] at hres
              by_cases hst : c0.state = State.running
              · rw [if_pos hst] at hres; cases hres
              · rw [if_neg hst] at hres
                injection hres with hreg
                rw [← hreg, get_container_remove_other _ _ _ hc']
                exact ⟨c, hget, hex⟩
  | monitorExit cid' code =>
      simp only [ManagerState.step, ContainerManager.monitorExit]
      by_cases hc' : cid' = cid
      · subst hc'
        rw [get_container_update_same, hget]
        exact ⟨_, rfl, rfl⟩
      · rw [get_container_update_other _ _ _ _ _ hc']
        exact ⟨c, hget, hex⟩

/-- Trace form: across any operation sequence containing neither a `remove`
of the id nor a `create` drawing the id, an `Exited` container stays present
and `Exited`. -/
theorem run_preserves_exited (ops : List Op) :
    ∀ (s : ManagerState) (cid : PyStr) (c : Container),
      s.registry.get_container cid = some c → c.state = State.exited →
      (∀ op ∈ ops, Op.isRemoveOf cid op = false ∧ Op.isCreateOf cid op = false) →
      ∃ c', (s.run ops).registry.get_container cid = some c' ∧
        c'.state = State.exited := by
  induction ops with
  | nil =>
      intro s cid c hget hex _
      exact ⟨c, hget, hex⟩
  | cons op ops ih =>
      intro s cid c hget hex hops
      have hop := hops op (List.mem_cons_self op ops)
      obtain ⟨cmid, hstep, hmid⟩ :=
        step_preserves_exited s op cid c hget hex hop.1 hop.2
      exact ih (s.step op) cid cmid hstep hmid
        (fun o ho => hops o (List.mem_cons_of_mem op ho))

/-- Reachability invariant of the synchronization pipe: running user code in
the child requires the go bytes to have been written, and the go bytes are
written only after the parent has passed the mapping step. -/
theorem sync_invariant (s : SyncState) (h : SyncReachable s) :
    (2 ≤ s.childPc → s.goWritten = true) ∧
    (s.goWritten = true → 2 ≤ s.parentPc) := by
  induction h with
  | refl =>
      exact ⟨fun h2 => absurd h2 (by decide), fun hg => absurd hg (by decide)⟩
  | tail hab hstep ih =>
      cases hstep with
      | parentApplyMappings c g =>
          refine ⟨ih.1, fun hg => absurd (ih.2 hg) ?_⟩
          show ¬ (2 ≤ 0)
          decide
      | parentWriteGo c g =>
          refine ⟨fun _ => rfl, fun _ => ?_⟩
          show 2 ≤ 2
          decide
      | parentCloseFd c g =>
          refine ⟨ih.1, fun hg => le_trans (ih.2 hg) ?_⟩
          show 2 ≤ 3
          decide
      | parentApplyCgroup c g =>
          refine ⟨ih.1, fun hg => le_trans (ih.2 hg) ?_⟩
          show 3 ≤ 4
          decide
      | childCloseWrite p g =>
          refine ⟨fun h2 => absurd h2 ?_, ih.2⟩
          show ¬ (2 ≤ 1)
          decide
      | childReadUnblocks p =>
          exact ⟨fun _ => rfl, fun _ => ih.2 rfl⟩
      | childRunUserCode p g =>
          refine ⟨fun _ => ih.1 ?_, ih.2⟩
          show 2 ≤ 2
          decide

/-- C1: the spec states that `get_all` (and `Manager.list`, which delegates
to it) filters by state — returning exactly `[b]` for `Running` in the
`{a: Created, b: Running, c: Exited}` scenario — and returns all containers
when the filter is omitted. The source's `get_all_containers` declares no
filter parameter, yet `Manager.list` always passes its `state` argument
positionally (and the repository's own tests call
`get_all_containers(State.RUNNING)`), so every `Manager.list` call raises
`TypeError`; the spec-modelled filtered `get_all` does return exactly
`[b]`. -/
theorem C1_list_filter_raises_typeError :
    ContainerManager.list demoRegistryABC (some State.running) =
      Except.error PyErr.typeError ∧
    ContainerManager.list demoRegistryABC none = Except.error PyErr.typeError ∧
    demoRegistryABC.get_all_spec (some State.running) =
      [demoContainer ("b".toList) State.running (some 7)] :=
  ⟨rfl, rfl, rfl⟩

/-- C2: the spec states that Manager construction reconciles every persisted
`Running` container against the host via `kill(pid, 0)`. The source's
`_recover_running_containers` begins with
`self.registry.get_all_containers(State.RUNNING)` — a call with one
positional argument to a method that accepts none — so construction raises
`TypeError` before any recovery happens; the spec-modelled recovery does
keep a live-pid container `Running` with an orchestrator registered and
marks a dead-pid container `Exited`. -/
theorem C2_recovery_raises_typeError :
    ContainerManager.recover_running_containers (fun pid => decide (pid = 7))
      demoRegistryABC = Except.error PyErr.typeError ∧
    (ContainerManager.recover_spec (fun pid => decide (pid = 7))
      demoRegistryABC).1.get_container ("b".toList) =
      some (demoContainer ("b".toList) State.running (some 7)) ∧
    (ContainerManager.recover_spec (fun pid => decide (pid = 7))
      demoRegistryABC).2 = ["b".toList] ∧
    (ContainerManager.recover_spec (fun _ => false)
      demoRegistryABC).1.get_container ("b".toList) =
      some { demoContainer ("b".toList) State.running (some 7) with
        state := State.exited } :=
  ⟨rfl, rfl, rfl, rfl⟩

/-- C3 counterexample: for wait status 15 (child killed by SIGTERM),
`WIFSIGNALED` holds and the claim prescribes `128 + 15 = 143`, but the
exit-code derivation inside `wait_for_exit` yields `-1`: its only branches
are `WIFEXITED` and `-1`. -/
theorem C3_signal_exit_code_counterexample :
    NamespaceOrchestrator.wait_for_exit (some 42) 15 =
      Except.ok (-1, [WaitEvent.waitpid, WaitEvent.cleanupResources]) ∧
    WIFEXITED 15 = false ∧ WIFSIGNALED 15 = true ∧ WTERMSIG 15 = 15 ∧
    NamespaceOrchestrator.wait_exit_code 15 ≠ 128 + (WTERMSIG 15 : Int) := by
  refine ⟨rfl, rfl, rfl, rfl, ?_⟩
  decide

/-- C3 (amended): `wait_for_exit` performs `waitpid` and returns
`WEXITSTATUS(status)` when the process exited normally and `-1` in every
other case — including death by signal, since the `128 + signal` derivation
lives only in the uncalled `_handle_child_exit` — and it invokes
`cleanup_resources` before returning. -/
theorem C3_wait_for_exit_amended (pid : Int) (status : Nat) (hpid : pid ≠ 0) :
    NamespaceOrchestrator.wait_for_exit (some pid) status =
      Except.ok ((if WIFEXITED status then (WEXITSTATUS status : Int) else -1),
        [WaitEvent.waitpid, WaitEvent.cleanupResources]) ∧
    ∀ code events,
      NamespaceOrchestrator.wait_for_exit (some pid) status =
        Except.ok (code, events) →
      WaitEvent.cleanupResources ∈ events := by
  constructor
  · simp [NamespaceOrchestrator.wait_for_exit,
      NamespaceOrchestrator.wait_exit_code, hpid]
  · intro code events h
    simp only [NamespaceOrchestrator.wait_for_exit, if_neg hpid,
      Except.ok.injEq, Prod.mk.injEq] at h
    rw [← h.2]
    decide

/-- Witness for the amended C3 theorem at pid 42, status 0. -/
theorem C3_wait_for_exit_amended_witness :
    (42 : Int) ≠ 0 ∧
    (NamespaceOrchestrator.wait_for_exit (some 42) 0 =
      Except.ok ((if WIFEXITED 0 then (WEXITSTATUS 0 : Int) else -1),
        [WaitEvent.waitpid, WaitEvent.cleanupResources]) ∧
    ∀ code events,
      NamespaceOrchestrator.wait_for_exit (some 42) 0 =
        Except.ok (code, events) →
      WaitEvent.cleanupResources ∈ events) :=
  ⟨by decide, C3_wait_for_exit_amended 42 0 (by decide)⟩

/-- C4: a save serializes the full map, writes it to the temp file, and
renames it onto the registry file atomically; at every crash point the
registry file holds either the complete old content or the complete new
serialized map, never a partial one, and just before the rename the temp
file holds the complete serialized map. -/
theorem C4_save_atomic (d : Disk) (r : ContainerRegistry) (p : CrashPoint) :
    ((save_to_file_crash d r p).regFile = d.regFile ∨
      (save_to_file_crash d r p).regFile = some (serializeRegistry r)) ∧
    (save_to_file_crash d r CrashPoint.beforeRename).tmpFile =
      some (serializeRegistry r, (serializeRegistry r).length) ∧
    save_to_file d r =
      { regFile := some (serializeRegistry r), tmpFile := none } := by
  refine ⟨?_, rfl, rfl⟩
  cases p
  · exact Or.inl rfl
  · exact Or.inl rfl
  · exact Or.inl rfl
  · exact Or.inr rfl

/-- C5: for every container whose datetime fields satisfy the bounds Python's
`datetime` type guarantees, `from_json (to_json c) = c`; moreover the
serialized form carries the state as its lowercase enum value and
`created_at` as an ISO-8601 string. -/
theorem C5_json_roundtrip (importDefault : PyDateTime) (c : Container)
    (hc : c.created_at.valid) (hs : ∀ s ∈ c.started_at, s.valid)
    (he : ∀ e ∈ c.exited_at, e.valid) :
    Container.from_json importDefault (Container.to_json c) = some c ∧
    lookupField (toDictFields c) ("state".toList) =
      some (Json.str c.state.value) ∧
    lookupField (toDictFields c) ("created_at".toList) =
      some (Json.str c.created_at.isoformat) :=
  ⟨from_dict_to_dict importDefault c hc hs he, rfl, rfl⟩

/-- Witness for C5 on a fully populated concrete container. -/
theorem C5_json_roundtrip_witness :
    demoFullContainer.created_at.valid ∧
    (∀ s ∈ demoFullContainer.started_at, s.valid) ∧
    (∀ e ∈ demoFullContainer.exited_at, e.valid) ∧
    (Container.from_json demoTime (Container.to_json demoFullContainer) =
      some demoFullContainer ∧
    lookupField (toDictFields demoFullContainer) ("state".toList) =
      some (Json.str demoFullContainer.state.value) ∧
    lookupField (toDictFields demoFullContainer) ("created_at".toList) =
      some (Json.str demoFullContainer.created_at.isoformat)) :=
  ⟨by decide, by decide, by decide,
    C5_json_roundtrip demoTime demoFullContainer (by decide) (by decide)
      (by decide)⟩

/-- C6: a `create` call succeeds exactly when the name and the command are
both valid — each validated by its own predicate — and a call rejected by
validation leaves the registry unchanged, so nothing is persisted. -/
theorem C6_create_validation (importTime : PyDateTime)
    (reg : ContainerRegistry) (name : PyStr) (command : List PyStr)
    (memory_limit : Int) (container_id : PyStr) :
    ((ContainerManager.create importTime reg name command memory_limit
        container_id).1.isOk =
      (validate_container_name name && validate_command command)) ∧
    ((validate_container_name name && validate_command command) = false →
      (ContainerManager.create importTime reg name command memory_limit
        container_id).2 = reg) := by
  unfold ContainerManager.create
  cases h1 : validate_container_name name <;>
    cases h2 : validate_command command <;>
      simp [Except.isOk, Except.toBool]

/-- Witness for C6 at a name with a slash and a dangerous command. -/
theorem C6_create_validation_witness :
    ((ContainerManager.create demoTime demoRegistryABC ("c/1".toList)
        [("rm".toList)] 0 ("x1".toList)).1.isOk =
      (validate_container_name ("c/1".toList) &&
        validate_command [("rm".toList)])) ∧
    ((validate_container_name ("c/1".toList) &&
        validate_command [("rm".toList)]) = false →
      (ContainerManager.create demoTime demoRegistryABC ("c/1".toList)
        [("rm".toList)] 0 ("x1".toList)).2 = demoRegistryABC) :=
  C6_create_validation demoTime demoRegistryABC ("c/1".toList) [("rm".toList)] 0
    ("x1".toList)

/-- C7: `Exited` is terminal short of `remove` + `create`: `start` raises
unless the container is `Created`, `stop` raises unless it is `Running`,
`remove` raises while it is `Running`, and across any operation sequence
containing neither a `remove` of the id nor a `create` drawing that id (ids
from `uuid4` are fresh), a container observed `Exited` is still `Exited`. -/
theorem C7_exited_is_terminal :
    (∀ (reg : ContainerRegistry) (cid : PyStr) (pid : Int) (c : Container),
        reg.get_container cid = some c → c.state ≠ State.created →
        ContainerManager.start reg cid pid = Except.error PyErr.valueError) ∧
    (∀ (reg : ContainerRegistry) (orchs : List PyStr) (cid : PyStr)
        (c : Container),
        reg.get_container cid = some c → c.state ≠ State.running →
        ContainerManager.stop reg orchs cid = Except.error PyErr.valueError) ∧
    (∀ (reg : ContainerRegistry) (cid : PyStr) (c : Container),
        reg.get_container cid = some c → c.state = State.running →
        ContainerManager.remove reg cid = Except.error PyErr.valueError) ∧
    (∀ (s : ManagerState) (ops : List Op) (cid : PyStr) (c : Container),
        s.registry.get_container cid = some c → c.state = State.exited →
        (∀ op ∈ ops, Op.isRemoveOf cid op = false ∧
          Op.isCreateOf cid op = false) →
        ∀ c', (s.run ops).registry.get_container cid = some c' →
          c'.state = State.exited) := by
  refine ⟨?_, ?_, ?_, ?_⟩
  · intro reg cid pid c hget hst
    simp [ContainerManager.start, hget, hst]
  · intro reg orchs cid c hget hst
    simp [ContainerManager.stop, hget, hst]
  · intro reg cid c hget hst
    simp [ContainerManager.remove, hget, hst]
  · intro s ops cid c hget hex hops c' hget'
    obtain ⟨c2, hg2, hx2⟩ := run_preserves_exited ops s cid c hget hex hops
    rw [hget'] at hg2
    injection hg2 with h
    rw [h]
    exact hx2

/-- Witness for C7: the exited container `c` survives a start, a stop, an
unrelated remove and a monitor notification, still exited. -/
theorem C7_exited_is_terminal_witness :
    demoState.registry.get_container ("c".toList) =
      some (demoContainer ("c".toList) State.exited none) ∧
    (demoContainer ("c".toList) State.exited none).state = State.exited ∧
    (∀ op ∈ demoOps, Op.isRemoveOf ("c".toList) op = false ∧
      Op.isCreateOf ("c".toList) op = false) ∧
    (∀ c', (demoState.run demoOps).registry.get_container ("c".toList) =
        some c' → c'.state = State.exited) :=
  ⟨rfl, rfl, by decide,
    C7_exited_is_terminal.2.2.2 demoState demoOps ("c".toList)
      (demoContainer ("c".toList) State.exited none) rfl rfl (by decide)⟩

/-- C8 counterexample: with the user namespace active, the parent trace of
`create_container_process` is mappings → go bytes → close → cgroup attach;
the claimed order mappings → cgroup attach → go bytes does not embed into
it. -/
theorem C8_parent_order_counterexample :
    NamespaceOrchestrator.create_container_process_trace demoOrchConfig =
      Except.ok [ParentEvent.setupNamespaces, ParentEvent.preSetupCgroups,
        ParentEvent.createPipe, ParentEvent.fork, ParentEvent.applyUserMappings,
        ParentEvent.writeGo, ParentEvent.closeWriteFd,
        ParentEvent.applyCgroup] ∧
    ¬ List.Sublist
      [ParentEvent.applyUserMappings, ParentEvent.applyCgroup,
        ParentEvent.writeGo]
      [ParentEvent.setupNamespaces, ParentEvent.preSetupCgroups,
        ParentEvent.createPipe, ParentEvent.fork, ParentEvent.applyUserMappings,
        ParentEvent.writeGo, ParentEvent.closeWriteFd,
        ParentEvent.applyCgroup] :=
  ⟨rfl, by decide⟩

/-- C8 (amended): after the fork, with user-namespace mappings active (not
running as root, both mapping lists non-empty), the parent (1) writes the
UID/GID maps, (2) writes the 2 bytes `"go"` to the pipe and closes its write
end, and only then (3) writes the container PID into the cgroup's
`cgroup.procs`. -/
theorem C8_parent_order_amended (cfg : OrchConfig) (h1 : cfg.commandSet = true)
    (h2 : cfg.runningAsRoot = false) (h3 : cfg.uidMappings = true)
    (h4 : cfg.gidMappings = true) :
    NamespaceOrchestrator.create_container_process_trace cfg =
      Except.ok [ParentEvent.setupNamespaces, ParentEvent.preSetupCgroups,
        ParentEvent.createPipe, ParentEvent.fork, ParentEvent.applyUserMappings,
        ParentEvent.writeGo, ParentEvent.closeWriteFd,
        ParentEvent.applyCgroup] ∧
    List.Sublist
      [ParentEvent.applyUserMappings, ParentEvent.writeGo,
        ParentEvent.closeWriteFd, ParentEvent.applyCgroup]
      [ParentEvent.setupNamespaces, ParentEvent.preSetupCgroups,
        ParentEvent.createPipe, ParentEvent.fork, ParentEvent.applyUserMappings,
        ParentEvent.writeGo, ParentEvent.closeWriteFd,
        ParentEvent.applyCgroup] := by
  constructor
  · simp [NamespaceOrchestrator.create_container_process_trace, h1, h2, h3, h4]
  · decide

/-- Witness for the amended C8 theorem at the non-root, mapped
configuration. -/
theorem C8_parent_order_amended_witness :
    demoOrchConfig.commandSet = true ∧ demoOrchConfig.runningAsRoot = false ∧
    demoOrchConfig.uidMappings = true ∧ demoOrchConfig.gidMappings = true ∧
    (NamespaceOrchestrator.create_container_process_trace demoOrchConfig =
      Except.ok [ParentEvent.setupNamespaces, ParentEvent.preSetupCgroups,
        ParentEvent.createPipe, ParentEvent.fork, ParentEvent.applyUserMappings,
        ParentEvent.writeGo, ParentEvent.closeWriteFd,
        ParentEvent.applyCgroup] ∧
    List.Sublist
      [ParentEvent.applyUserMappings, ParentEvent.writeGo,
        ParentEvent.closeWriteFd, ParentEvent.applyCgroup]
      [ParentEvent.setupNamespaces, ParentEvent.preSetupCgroups,
        ParentEvent.createPipe, ParentEvent.fork, ParentEvent.applyUserMappings,
        ParentEvent.writeGo, ParentEvent.closeWriteFd,
        ParentEvent.applyCgroup]) :=
  ⟨rfl, rfl, rfl, rfl, C8_parent_order_amended demoOrchConfig rfl rfl rfl rfl⟩

/-- C9: in every reachable state of the fork protocol with a user namespace
active, if the child has passed its blocking read (and so could be running
user code), the parent has already performed the mapping write and the go
write: the child cannot run user code before the UID/GID maps are
installed. -/
theorem C9_child_blocks_until_mappings (s : SyncState) (h : SyncReachable s)
    (hchild : 2 ≤ s.childPc) : s.goWritten = true ∧ 2 ≤ s.parentPc := by
  have hi := sync_invariant s h
  exact ⟨hi.1 hchild, hi.2 (hi.1 hchild)⟩

/-- Witness for C9 at the reachable state where the child just unblocked. -/
theorem C9_child_blocks_until_mappings_witness :
    SyncReachable ⟨2, 2, true⟩ ∧ 2 ≤ (⟨2, 2, true⟩ : SyncState).childPc ∧
    ((⟨2, 2, true⟩ : SyncState).goWritten = true ∧
      2 ≤ (⟨2, 2, true⟩ : SyncState).parentPc) := by
  have hr : SyncReachable ⟨2, 2, true⟩ := by
    have s1 : SyncStep SyncState.init ⟨1, 0, false⟩ :=
      SyncStep.parentApplyMappings 0 false
    have s2 : SyncStep ⟨1, 0, false⟩ ⟨2, 0, true⟩ :=
      SyncStep.parentWriteGo 0 false
    have s3 : SyncStep ⟨2, 0, true⟩ ⟨2, 1, true⟩ :=
      SyncStep.childCloseWrite 2 true
    have s4 : SyncStep ⟨2, 1, true⟩ ⟨2, 2, true⟩ :=
      SyncStep.childReadUnblocks 2
    exact Relation.ReflTransGen.head s1 (Relation.ReflTransGen.head s2
      (Relation.ReflTransGen.head s3 (Relation.ReflTransGen.single s4)))
  exact ⟨hr, by decide,
    C9_child_blocks_until_mappings ⟨2, 2, true⟩ hr (by decide)⟩

/-- C10: the claim says each `create` stamps `created_at` with the current
time of that call. In the source, `created_at: datetime = datetime.now()` is
a dataclass default evaluated once at import, and `create` omits the
argument, so every created container carries the same import-time value
regardless of when it is created; `create` persists exactly
`newContainer`. -/
theorem C10_created_at_frozen_at_import (importTime : PyDateTime)
    (reg : ContainerRegistry) (n1 : PyStr) (cmd1 : List PyStr) (m1 : Int)
    (i1 : PyStr) (n2 : PyStr) (cmd2 : List PyStr) (m2 : Int) (i2 : PyStr) :
    (ContainerManager.newContainer importTime n1 cmd1 m1 i1).created_at =
      importTime ∧
    (ContainerManager.newContainer importTime n1 cmd1 m1 i1).created_at =
      (ContainerManager.newContainer importTime n2 cmd2 m2 i2).created_at ∧
    (ContainerManager.create importTime reg ("c1".toList)
        [("/bin/echo".toList)] m1 i1).2 =
      reg.save_container (ContainerManager.newContainer importTime
        ("c1".toList) [("/bin/echo".toList)] m1 i1) :=
  ⟨rfl, rfl, rfl⟩

end MiniCon
